import Mathlib

/-!
Verification of the core behaviors of a browser-resident blog editor:
the debounced autosave coordinator, the dirty tracker, the save path of
the post controller, and the inactivity screen-lock state machine.

The JavaScript source is shallowly embedded: timer-driven code becomes a
trace semantics over lists of (milliseconds) timestamps or explicit
event lists, JS strings become Lean strings or lists of characters, and
asynchronous persistence calls become explicit begin/resolve events with
the backend outcome passed as a value.
-/

/-! ## Debounce (src/js/utils.js, Utils.debounce)

The debounced function keeps a single pending timeout; each call cancels
the pending timeout and schedules the wrapped function wait ms later.
Given the (nondecreasing) times at which the debounced function is
called, debounceFires returns the times at which the wrapped function
actually runs: a pending timeout scheduled at time t fires at t + wait
unless another call arrives strictly before t + wait.  A call arriving
at exactly t + wait is processed after the timeout callback, which has
already fired at that instant. -/

def debounceFires (wait : Nat) : List Nat → List Nat
  | [] => []
  | [t] => [t + wait]
  | t :: t' :: rest =>
    if t' < t + wait then debounceFires wait (t' :: rest)
    else (t + wait) :: debounceFires wait (t' :: rest)

/-- Embedding of the debounced closure installed by PostController.init:
the wrapped function body is `if (this.isDirty) this.saveCurrentPost(true)`,
so a save call happens at a fire time exactly when the dirty flag holds
at that moment.  dirtyAt gives the value of the dirty flag at each
instant. -/
def autosaveRuns (wait : Nat) (calls : List Nat) (dirtyAt : Nat → Bool) : List Nat :=
  (debounceFires wait calls).filter dirtyAt

/-! ## Activity-signal rate limiter (src/js/contents.js, LockController.handleActivity)

handleActivity returns at once when a throttle timer is pending;
otherwise it schedules a timer 1000 ms out whose callback clears the
pending flag and invokes resetActivityTimer.  throttleGo runs this over
the (nondecreasing) list of signal times, with the first argument the
expiry time of the pending throttle timer, and returns the times at
which resetActivityTimer is invoked.  A signal arriving at exactly the
expiry instant is processed after the timer callback. -/

def throttleGo : Option Nat → List Nat → List Nat
  | none, [] => []
  | none, t :: rest => throttleGo (some (t + 1000)) rest
  | some e, [] => [e]
  | some e, t :: rest =>
    if t < e then throttleGo (some e) rest
    else e :: throttleGo (some (t + 1000)) rest

/-- Times at which resetActivityTimer runs, for a list of activity
signal times, starting with no throttle timer pending. -/
def handleActivityResets (signals : List Nat) : List Nat :=
  throttleGo none signals

lemma throttleGo_head (e : Nat) (l : List Nat) :
    (throttleGo (some e) l).head? = some e := by
  induction l with
  | nil => simp [throttleGo]
  | cons t rest ih =>
    by_cases h : t < e
    · simpa [throttleGo, h] using ih
    · simp [throttleGo, h]

lemma throttleGo_chain (l : List Nat) :
    ∀ e : Nat, List.Chain' (fun a b => a + 1000 ≤ b) (throttleGo (some e) l) := by
  induction l with
  | nil => intro e; simp [throttleGo]
  | cons t rest ih =>
    intro e
    by_cases h : t < e
    · simpa [throttleGo, h] using ih e
    · rw [throttleGo, if_neg h]
      rw [List.chain'_cons']
      refine ⟨?_, ih (t + 1000)⟩
      intro b hb
      rw [throttleGo_head] at hb
      simp only [Option.mem_def, Option.some.injEq] at hb
      have he : e ≤ t := Nat.le_of_not_lt h
      omega

lemma throttleGo_absorb (e : Nat) (l : List Nat) (h : ∀ u ∈ l, u < e) :
    throttleGo (some e) l = [e] := by
  induction l with
  | nil => simp [throttleGo]
  | cons t rest ih =>
    have ht : t < e := h t (by simp)
    rw [throttleGo, if_pos ht]
    exact ih (fun u hu => h u (by simp [hu]))

lemma debounceFires_single (t : Nat) (rest : List Nat)
    (h : List.Chain' (fun a b => b < a + 2000) (t :: rest)) :
    debounceFires 2000 (t :: rest) = [(t :: rest).getLastD 0 + 2000] := by
  induction rest generalizing t with
  | nil => simp [debounceFires]
  | cons t' rest' ih =>
    rw [List.chain'_cons] at h
    rw [debounceFires, if_pos h.1, ih t' h.2]
    simp [List.getLastD_cons]

/-- C3: for any nonempty sequence of edit notifications whose consecutive
elements are strictly less than 2000 ms apart, the debounced body runs
exactly once, 2000 ms after the last notification, and a save call is
issued at that moment exactly when the dirty flag still holds then. -/
theorem autosave_fires_once_after_quiescence (t : Nat) (rest : List Nat)
    (dirtyAt : Nat → Bool)
    (hgap : List.Chain' (fun a b => b < a + 2000) (t :: rest)) :
    debounceFires 2000 (t :: rest) = [(t :: rest).getLastD 0 + 2000] ∧
    autosaveRuns 2000 (t :: rest) dirtyAt =
      (if dirtyAt ((t :: rest).getLastD 0 + 2000) = true
        then [(t :: rest).getLastD 0 + 2000] else []) := by
  have h1 := debounceFires_single t rest hgap
  refine ⟨h1, ?_⟩
  unfold autosaveRuns
  rw [h1, List.filter_cons]
  simp

/-- Witness for the C3 theorem: two notifications 500 ms apart, dirty
still set, produce exactly one save 2000 ms after the second one. -/
theorem autosave_fires_once_after_quiescence_witness :
    debounceFires 2000 (0 :: [500]) = [(0 :: [500]).getLastD 0 + 2000] ∧
    autosaveRuns 2000 (0 :: [500]) (fun _ => true) =
      (if (fun _ => true) ((0 :: [500]).getLastD 0 + 2000) = true
        then [(0 :: [500]).getLastD 0 + 2000] else []) :=
  autosave_fires_once_after_quiescence 0 [500] (fun _ => true)
    (by norm_num [List.chain'_cons])

/-- C2 counterexample: a single activity signal at time 0, arriving with
no rate-limit timer pending, does not invoke the timer reset immediately
at time 0; the reset runs only at time 1000, when the trailing throttle
timer fires. -/
theorem handleActivity_first_signal_not_immediate :
    handleActivityResets [0] = [1000] ∧ (0 : Nat) ∉ handleActivityResets [0] := by
  decide

/-- C2 amended: the rate limiter invokes resetActivityTimer at most once
per 1000 ms window (consecutive invocations are at least 1000 ms apart),
and the first signal of a window schedules the single reset of that
window at the trailing edge, 1000 ms after the signal, with all further
signals inside the window dropped. -/
theorem handleActivity_rate_limited (signals : List Nat) (t : Nat)
    (rest : List Nat) (hwin : ∀ u ∈ rest, u < t + 1000) :
    List.Chain' (fun a b => a + 1000 ≤ b) (handleActivityResets signals) ∧
    handleActivityResets (t :: rest) = [t + 1000] := by
  constructor
  · cases signals with
    | nil => simp [handleActivityResets, throttleGo]
    | cons a l =>
      simpa [handleActivityResets, throttleGo] using throttleGo_chain l (a + 1000)
  · unfold handleActivityResets
    rw [throttleGo]
    exact throttleGo_absorb (t + 1000) rest hwin

/-- Witness for the C2 amended theorem at concrete signal lists. -/
theorem handleActivity_rate_limited_witness :
    List.Chain' (fun a b => a + 1000 ≤ b) (handleActivityResets [0, 100, 2500]) ∧
    handleActivityResets (0 :: [500]) = [0 + 1000] :=
  handleActivity_rate_limited [0, 100, 2500] 0 [500] (by decide)

/-! ## Post controller (src/js/controllers/PostController.js)

State of the PostController singleton together with the log of events
emitted on the application event bus.  The asynchronous save is split at
its await point: beginSave is the synchronous part of saveCurrentPost up
to the StorageManager.savePost call, and resolveSave is the continuation
that runs when the backend promise settles, with the backend outcome
passed in as a value.  inFlight counts savePost calls that have been
issued and have not yet settled. -/

inductive PCEvent where
  | dirtyChanged (isDirty : Bool)
  | saving
  | saved (isAutoSave : Bool)
  | saveError (reason : String)
  | created
  | loaded
deriving DecidableEq, Repr

structure SavedPost where
  id : String
  filename : String
  createdAt : String
  isFavorite : Bool
deriving DecidableEq, Repr

structure PCState where
  currentPostId : Option String
  currentFilename : Option String
  currentPostCreatedAt : String
  currentIsFavorite : Bool
  isDirty : Bool
  inFlight : Nat
  events : List PCEvent
deriving DecidableEq, Repr

/-- Embedding of PostController.setDirty: sets the flag and emits a
post:dirty event on every call, including redundant same-value calls. -/
def setDirty (s : PCState) (isDirty : Bool) : PCState :=
  { s with isDirty := isDirty,
           events := s.events ++ [PCEvent.dirtyChanged isDirty] }

/-- Embedding of PostController.createNewPost: resets the identity
fields, clears the editor, calls setDirty(false) and emits post:created.
The DOM-only effects (clearing the editor surface, hiding the welcome
screen) have no counterpart in the model state. -/
def createNewPost (s : PCState) (now : String) : PCState :=
  let s1 := { s with currentPostId := none,
                     currentFilename := none,
                     currentIsFavorite := false,
                     currentPostCreatedAt := now }
  let s2 := setDirty s1 false
  { s2 with events := s2.events ++ [PCEvent.created] }

/-- Embedding of PostController.loadPost on a non-null post: copies the
identity fields of the loaded post, calls setDirty(false) and emits
post:loaded. -/
def loadPost (s : PCState) (id filename createdAt : String)
    (isFavorite : Bool) : PCState :=
  let s1 := { s with currentPostId := some id,
                     currentFilename := some filename,
                     currentPostCreatedAt := createdAt,
                     currentIsFavorite := isFavorite }
  let s2 := setDirty s1 false
  { s2 with events := s2.events ++ [PCEvent.loaded] }

/-- JS string disjunction: the left operand unless it is the empty
string (falsy), otherwise the right operand. -/
def jsOrString (a b : String) : String :=
  if a = "" then b else a

/-- Title computation at the top of saveCurrentPost:
titleOverride, else the trimmed DOM title input when present, else the
fallback string.  none models a null titleOverride or an absent DOM
input element. -/
def computeTitle (titleOverride titleInputValue : Option String) : String :=
  jsOrString
    (jsOrString (titleOverride.getD "")
      (match titleInputValue with
        | some v => v.trim
        | none => ""))
    "Untitled Post"

/-- Guard rejecting an empty manual save in saveCurrentPost:
fires when the plain text, the computed title are both empty strings and
this is not an auto-save. -/
def emptyPostGuard (title plainText : String) (isAutoSave : Bool) : Bool :=
  plainText = "" && title = "" && !isAutoSave

/-- Synchronous part of PostController.saveCurrentPost up to the await
of StorageManager.savePost: computes the title, returns unchanged when
the empty-post guard fires, otherwise emits post:saving for an auto-save
and issues the backend call.  There is no check of inFlight anywhere on
this path. -/
def beginSave (s : PCState) (isAutoSave : Bool)
    (titleOverride titleInputValue : Option String) (plainText : String) :
    PCState :=
  if emptyPostGuard (computeTitle titleOverride titleInputValue) plainText
      isAutoSave then s
  else
    let s1 := if isAutoSave
      then { s with events := s.events ++ [PCEvent.saving] }
      else s
    { s1 with inFlight := s1.inFlight + 1 }

/-- Continuation of saveCurrentPost once the savePost promise settles.
On success the identity fields are overwritten from the backend reply,
setDirty(false) runs and post:saved is emitted; on failure only a
post:saveError event carrying the reason is emitted and every other
field of the state is left as it was. -/
def resolveSave (s : PCState) (isAutoSave : Bool)
    (result : Except String SavedPost) : PCState :=
  match result with
  | Except.ok p =>
    let s1 := { s with currentPostId := some p.id,
                       currentFilename := some p.filename,
                       currentIsFavorite := p.isFavorite,
                       currentPostCreatedAt := p.createdAt,
                       inFlight := s.inFlight - 1 }
    let s2 := setDirty s1 false
    { s2 with events := s2.events ++ [PCEvent.saved isAutoSave] }
  | Except.error e =>
    { s with inFlight := s.inFlight - 1,
             events := s.events ++ [PCEvent.saveError e] }

/-- Embedding of UIController.handleSave: reads the trimmed title from
the DOM, substitutes the fallback when it is empty, and calls
saveCurrentPost(false, title). -/
def handleSave (s : PCState) (titleInputValue : String) (plainText : String) :
    PCState :=
  beginSave s false
    (some (jsOrString titleInputValue.trim "Untitled Post"))
    (some titleInputValue) plainText

/-- Embedding of the debounced closure body from PostController.init:
when the 2000 ms debounce window elapses, saveCurrentPost(true) runs
exactly when the dirty flag is still set. -/
def autoSaveFire (s : PCState) (titleInputValue : Option String)
    (plainText : String) : PCState :=
  if s.isDirty then beginSave s true none titleInputValue plainText else s

lemma jsOrString_ne_empty (a b : String) (hb : b ≠ "") :
    jsOrString a b ≠ "" := by
  unfold jsOrString
  split
  · exact hb
  · simp_all

lemma computeTitle_ne_empty (titleOverride titleInputValue : Option String) :
    computeTitle titleOverride titleInputValue ≠ "" := by
  unfold computeTitle
  exact jsOrString_ne_empty _ _ (by decide)

lemma emptyPostGuard_false (titleOverride titleInputValue : Option String)
    (plainText : String) (isAutoSave : Bool) :
    emptyPostGuard (computeTitle titleOverride titleInputValue) plainText
      isAutoSave = false := by
  have h := computeTitle_ne_empty titleOverride titleInputValue
  unfold emptyPostGuard
  simp [h]

/-- Concrete controller state used by the closed instances below: a
fresh, never-saved document with unsaved edits and no save in flight. -/
def pcStart : PCState :=
  { currentPostId := none,
    currentFilename := none,
    currentPostCreatedAt := "2026-01-01T00:00:00.000Z",
    currentIsFavorite := false,
    isDirty := true,
    inFlight := 0,
    events := [] }

/-- C1 counterexample: a manual save (UIController.handleSave) followed,
before the backend resolves, by the debounced autosave firing while the
document is still dirty, leaves two save calls in flight at once; the
claimed at-most-one-in-flight bound fails on this interleaving because
saveCurrentPost has no in-flight guard. -/
theorem save_inflight_counterexample :
    (autoSaveFire (handleSave pcStart "My Title" "hello")
        (some "My Title") "hello").inFlight = 2 ∧
    ¬ (autoSaveFire (handleSave pcStart "My Title" "hello")
        (some "My Title") "hello").inFlight ≤ 1 := by
  refine ⟨rfl, ?_⟩
  intro hle
  rw [show (autoSaveFire (handleSave pcStart "My Title" "hello")
      (some "My Title") "hello").inFlight = 2 from rfl] at hle
  omega

/-- C1 amended: saveCurrentPost never defers: every save trigger,
manual or debounced, immediately issues a backend call and increments
the number of unresolved saves, regardless of how many saves are
already in flight, so concurrent saves for the same document are
possible. -/
theorem save_requests_never_deferred (s : PCState) (isAutoSave : Bool)
    (titleOverride titleInputValue : Option String) (plainText : String) :
    (beginSave s isAutoSave titleOverride titleInputValue
        plainText).inFlight = s.inFlight + 1 ∧
    (autoSaveFire s titleInputValue plainText).inFlight =
      (if s.isDirty then s.inFlight + 1 else s.inFlight) := by
  have hg := emptyPostGuard_false titleOverride titleInputValue plainText
    isAutoSave
  have hg2 := emptyPostGuard_false none titleInputValue plainText true
  constructor
  · unfold beginSave
    rw [hg]
    cases isAutoSave <;> simp
  · unfold autoSaveFire
    cases hd : s.isDirty
    · simp
    · simp only [if_true]
      unfold beginSave
      rw [hg2]
      simp

/-- C7: when the backend rejects a save, the dirty flag stays true, a
post:saveError notification carrying the failure reason is the only
event emitted, the identity fields of the current document are left
unchanged, and nothing new is issued: the in-flight count only drops by
the resolving call. -/
theorem save_failure_keeps_state (s : PCState) (isAutoSave : Bool)
    (e : String) (hdirty : s.isDirty = true) :
    (resolveSave s isAutoSave (Except.error e)).isDirty = true ∧
    (resolveSave s isAutoSave (Except.error e)).currentPostId =
      s.currentPostId ∧
    (resolveSave s isAutoSave (Except.error e)).currentFilename =
      s.currentFilename ∧
    (resolveSave s isAutoSave (Except.error e)).currentPostCreatedAt =
      s.currentPostCreatedAt ∧
    (resolveSave s isAutoSave (Except.error e)).events =
      s.events ++ [PCEvent.saveError e] ∧
    (resolveSave s isAutoSave (Except.error e)).inFlight =
      s.inFlight - 1 := by
  simp [resolveSave, hdirty]

/-- Witness for the C7 theorem at a concrete dirty state and failure. -/
theorem save_failure_keeps_state_witness :
    (resolveSave pcStart false (Except.error "network")).isDirty = true ∧
    (resolveSave pcStart false (Except.error "network")).currentPostId =
      pcStart.currentPostId ∧
    (resolveSave pcStart false (Except.error "network")).currentFilename =
      pcStart.currentFilename ∧
    (resolveSave pcStart false (Except.error "network")).currentPostCreatedAt =
      pcStart.currentPostCreatedAt ∧
    (resolveSave pcStart false (Except.error "network")).events =
      pcStart.events ++ [PCEvent.saveError "network"] ∧
    (resolveSave pcStart false (Except.error "network")).inFlight =
      pcStart.inFlight - 1 :=
  save_failure_keeps_state pcStart false "network" rfl

/-- C8 counterexample: creating a new document clears the dirty flag
through setDirty(false), which unconditionally emits a
dirty-changed(false) notification, so navigation does emit a
became-clean notification, contrary to the claim. -/
theorem createNewPost_emits_clean_counterexample :
    (createNewPost pcStart "2026-01-02T00:00:00.000Z").isDirty = false ∧
    PCEvent.dirtyChanged false ∈
      (createNewPost pcStart "2026-01-02T00:00:00.000Z").events := by
  decide

/-- C8 amended: creating or loading a document clears the dirty flag and
emits the same dirty-changed(false) notification that a confirmed save
does, because setDirty emits on every call; what distinguishes a
confirmed save is the additional post:saved notification, which
navigation never emits. -/
theorem navigation_and_save_emissions (s : PCState)
    (now id filename createdAt : String) (isFavorite isAutoSave : Bool)
    (p : SavedPost) :
    (createNewPost s now).isDirty = false ∧
    (createNewPost s now).events =
      s.events ++ [PCEvent.dirtyChanged false, PCEvent.created] ∧
    (loadPost s id filename createdAt isFavorite).isDirty = false ∧
    (loadPost s id filename createdAt isFavorite).events =
      s.events ++ [PCEvent.dirtyChanged false, PCEvent.loaded] ∧
    (resolveSave s isAutoSave (Except.ok p)).isDirty = false ∧
    (resolveSave s isAutoSave (Except.ok p)).events =
      s.events ++ [PCEvent.dirtyChanged false, PCEvent.saved isAutoSave] := by
  simp [createNewPost, loadPost, resolveSave, setDirty]

/-- C10: the Empty post rejection branch of saveCurrentPost is
unreachable: the computed title falls back to the nonempty string
Untitled Post, so the guard can never fire, and a manual save of a
completely empty document proceeds to the backend. -/
theorem emptyPost_branch_unreachable (titleOverride titleInputValue :
    Option String) (plainText : String) (s : PCState) :
    computeTitle titleOverride titleInputValue ≠ "" ∧
    emptyPostGuard (computeTitle titleOverride titleInputValue) plainText
      false = false ∧
    (beginSave s false titleOverride titleInputValue plainText).inFlight =
      s.inFlight + 1 := by
  refine ⟨computeTitle_ne_empty titleOverride titleInputValue, ?_, ?_⟩
  · exact emptyPostGuard_false titleOverride titleInputValue plainText false
  · unfold beginSave
    rw [emptyPostGuard_false titleOverride titleInputValue plainText false]
    simp

/-! ## Lock controller (src/js/contents.js, LockController)

JS strings are modeled as lists of characters here, since the PIN
buffer is built character by character.  Scheduled setTimeout callbacks
are modeled as queues of pending delays: pendingChecks holds the delays
of scheduled checkPin callbacks (100 ms each, from the auto-check on a
full buffer) and pendingErrorClears the delays of scheduled updateDots
callbacks (500 ms each, from showError).  The corresponding LockEv
constructors fire the oldest pending callback.  The DOM listeners of
attachListeners pass handleInput exactly the keys backspace, enter, or
a single decimal digit, for keypad clicks and keydown events alike;
Key enumerates that alphabet. -/

structure LockCfg where
  enabled : Bool
  pin : List Char
  length : Nat
  timeout : Int
deriving DecidableEq, Repr

/-- Default configuration from the LockController literal. -/
def defaultLockCfg : LockCfg :=
  { enabled := false, pin := "0000".data, length := 4, timeout := 300000 }

structure LockState where
  config : LockCfg
  isLocked : Bool
  inputBuffer : List Char
  pendingChecks : List Nat
  pendingErrorClears : List Nat
  monitoring : Bool
  timerArmed : Bool
  errorShown : Bool
  unlockCount : Nat
deriving DecidableEq, Repr

inductive Key where
  | digit (c : Char)
  | backspace
  | enter
deriving DecidableEq, Repr

inductive LockEv where
  | keydown (c : Char)
  | keyBackspace
  | keyEnter
  | autoCheckFires
  | errorClearFires
  | inactivityFires
deriving DecidableEq, Repr

/-- Embedding of updateDots: purely visual except that it removes the
error class from every dot. -/
def updateDots (s : LockState) : LockState :=
  { s with errorShown := false }

/-- Embedding of resetActivityTimer: returns without arming when the
feature is disabled or the screen is locked; otherwise cancels and
rearms the single inactivity timer.  The timeout value is used as is,
with no positivity check. -/
def resetActivityTimer (s : LockState) : LockState :=
  if !s.config.enabled || s.isLocked then s else { s with timerArmed := true }

/-- Embedding of stopActivityMonitoring: detaches the listeners and
cancels the inactivity timer (and the throttle timer, which lives in
the separate rate-limiter model above). -/
def stopActivityMonitoring (s : LockState) : LockState :=
  { s with monitoring := false, timerArmed := false }

/-- Embedding of startActivityMonitoring: always stops first, returns
when disabled, otherwise attaches the listeners and resets the
inactivity timer. -/
def startActivityMonitoring (s : LockState) : LockState :=
  let s1 := stopActivityMonitoring s
  if s1.config.enabled then resetActivityTimer { s1 with monitoring := true }
  else s1

/-- Embedding of unlock: leaves the locked state, clears the buffer,
and resumes monitoring when the feature is enabled.  unlockCount is a
ghost counter of Locked-to-Unlocked transitions. -/
def unlock (s : LockState) : LockState :=
  let s1 := { s with isLocked := false, inputBuffer := [],
                     unlockCount := s.unlockCount + 1 }
  if s1.config.enabled then startActivityMonitoring s1 else s1

/-- Embedding of lock: a no-op when already locked, otherwise enters
the locked state with a cleared buffer and stops monitoring. -/
def lock (s : LockState) : LockState :=
  if s.isLocked then s
  else
    stopActivityMonitoring (updateDots { s with isLocked := true,
                                                inputBuffer := [] })

/-- Embedding of showError: marks the dots with the error class, clears
the buffer, and schedules updateDots 500 ms later. -/
def showError (s : LockState) : LockState :=
  { s with errorShown := true, inputBuffer := [],
           pendingErrorClears := s.pendingErrorClears ++ [500] }

/-- Embedding of checkPin: unlocks when the buffer equals the
configured PIN, otherwise runs the error path. -/
def checkPin (s : LockState) : LockState :=
  if s.inputBuffer = s.config.pin then unlock s else showError s

/-- Embedding of handleInput: backspace drops the last buffered
character, enter checks the PIN immediately and returns before
updateDots, and a digit is appended only while the buffer is below the
configured length, scheduling an automatic checkPin 100 ms later when
the buffer becomes exactly full. -/
def handleInput (s : LockState) (k : Key) : LockState :=
  match k with
  | Key.backspace => updateDots { s with inputBuffer := s.inputBuffer.dropLast }
  | Key.enter => checkPin s
  | Key.digit c =>
    updateDots <|
      if s.inputBuffer.length < s.config.length then
        let b := s.inputBuffer ++ [c]
        if b.length = s.config.length then
          { s with inputBuffer := b, pendingChecks := s.pendingChecks ++ [100] }
        else { s with inputBuffer := b }
      else s

/-- Event dispatch: the document-level listeners ignore everything
while unlocked, keydown forwards only decimal digits, Backspace and
Enter, and the timer events run the oldest scheduled callback of their
queue, if any.  The inactivity timer callback runs lock. -/
def dispatch (s : LockState) (ev : LockEv) : LockState :=
  match ev with
  | LockEv.keydown c =>
    if s.isLocked then
      (if '0' ≤ c ∧ c ≤ '9' then handleInput s (Key.digit c) else s)
    else s
  | LockEv.keyBackspace => if s.isLocked then handleInput s Key.backspace else s
  | LockEv.keyEnter => if s.isLocked then handleInput s Key.enter else s
  | LockEv.autoCheckFires =>
    match s.pendingChecks with
    | [] => s
    | _ :: rest => checkPin { s with pendingChecks := rest }
  | LockEv.errorClearFires =>
    match s.pendingErrorClears with
    | [] => s
    | _ :: rest => updateDots { s with pendingErrorClears := rest }
  | LockEv.inactivityFires =>
    if s.timerArmed then lock { s with timerArmed := false } else s

def runLock (s : LockState) (evs : List LockEv) : LockState :=
  evs.foldl dispatch s

/-- State immediately after lock() has taken effect: locked, empty
buffer, no scheduled callbacks, monitoring stopped. -/
def lockedStart (cfg : LockCfg) : LockState :=
  { config := cfg, isLocked := true, inputBuffer := [],
    pendingChecks := [], pendingErrorClears := [],
    monitoring := false, timerArmed := false, errorShown := false,
    unlockCount := 0 }

lemma runLock_feedDigits (ds : List Char) : ∀ s : LockState,
    s.isLocked = true →
    (∀ c ∈ ds, '0' ≤ c ∧ c ≤ '9') →
    s.inputBuffer.length + ds.length ≤ s.config.length →
    ds ≠ [] →
    runLock s (ds.map LockEv.keydown) =
      { s with inputBuffer := s.inputBuffer ++ ds,
               pendingChecks := s.pendingChecks ++
                 (if s.inputBuffer.length + ds.length = s.config.length
                   then [100] else []),
               errorShown := false } := by
  induction ds with
  | nil => intro s _ _ _ hne; exact absurd rfl hne
  | cons c rest ih =>
    intro s hl hd hlen _
    have hdc : '0' ≤ c ∧ c ≤ '9' := hd c (by simp)
    have hroom : s.inputBuffer.length < s.config.length := by
      simp only [List.length_cons] at hlen; omega
    have hstep : runLock s ((c :: rest).map LockEv.keydown) =
        runLock (handleInput s (Key.digit c)) (rest.map LockEv.keydown) := by
      simp [runLock, dispatch, hl, hdc]
    by_cases hrest : rest = []
    · subst hrest
      rw [hstep]
      simp only [List.map_nil, runLock, List.foldl_nil, handleInput,
        updateDots, hroom, if_true, List.length_append, List.length_cons,
        List.length_nil, Nat.zero_add]
      simp only [List.length_cons, List.length_nil] at hlen ⊢
      by_cases hfull : s.inputBuffer.length + 1 = s.config.length
      · simp [hfull]
      · simp [hfull]
    · have hrlen : 1 ≤ rest.length := by
        cases rest with
        | nil => exact absurd rfl hrest
        | cons a l => simp
      have hnotfull : ¬ s.inputBuffer.length + 1 = s.config.length := by
        simp only [List.length_cons] at hlen
        omega
      have hstep2 : handleInput s (Key.digit c) =
          { s with inputBuffer := s.inputBuffer ++ [c], errorShown := false } := by
        simp only [handleInput, updateDots, hroom, if_true,
          List.length_append, List.length_cons, List.length_nil,
          Nat.zero_add, hnotfull, if_false]
      rw [hstep, hstep2]
      rw [ih { s with inputBuffer := s.inputBuffer ++ [c], errorShown := false }
        hl (fun x hx => hd x (by simp [hx])) (by
        simp only [List.length_append, List.length_cons, List.length_nil]
        simp only [List.length_cons] at hlen
        omega) hrest]
      simp only [List.append_assoc, List.singleton_append, List.length_append,
        List.length_cons, List.length_nil, Nat.zero_add]
      have harith : s.inputBuffer.length + 1 + rest.length =
          s.inputBuffer.length + (rest.length + 1) := by omega
      rw [harith]

lemma runLock_append (s : LockState) (l1 l2 : List LockEv) :
    runLock s (l1 ++ l2) = runLock (runLock s l1) l2 :=
  List.foldl_append dispatch s l1 l2

lemma correctPin_pathA (cfg : LockCfg) (D : List Char)
    (hpin : cfg.pin = D) (hlen : D.length = cfg.length) (hpos : 0 < cfg.length)
    (hdig : ∀ c ∈ D, '0' ≤ c ∧ c ≤ '9') :
    runLock (lockedStart cfg) (D.map LockEv.keydown ++ [LockEv.autoCheckFires]) =
      { config := cfg, isLocked := false, inputBuffer := [],
        pendingChecks := [], pendingErrorClears := [],
        monitoring := cfg.enabled, timerArmed := cfg.enabled,
        errorShown := false, unlockCount := 1 } := by
  have hne : D ≠ [] := by
    intro h
    rw [h] at hlen
    simp at hlen
    omega
  have hfeed := runLock_feedDigits D (lockedStart cfg) rfl hdig
    (by simp [lockedStart, hlen]) hne
  rw [runLock_append, hfeed]
  simp only [lockedStart, List.nil_append, List.length_nil, Nat.zero_add,
    hlen, if_true]
  cases hE : cfg.enabled <;>
    simp [runLock, dispatch, checkPin, hpin, unlock, startActivityMonitoring,
      stopActivityMonitoring, resetActivityTimer, updateDots, hE]

lemma correctPin_pathB (cfg : LockCfg) (D : List Char)
    (hpin : cfg.pin = D) (hlen : D.length = cfg.length) (hpos : 0 < cfg.length)
    (hdig : ∀ c ∈ D, '0' ≤ c ∧ c ≤ '9') :
    runLock (lockedStart cfg)
        (D.map LockEv.keydown ++ [LockEv.keyEnter, LockEv.autoCheckFires]) =
      { config := cfg, isLocked := false, inputBuffer := [],
        pendingChecks := [], pendingErrorClears := [500],
        monitoring := cfg.enabled, timerArmed := cfg.enabled,
        errorShown := true, unlockCount := 1 } := by
  have hne : D ≠ [] := by
    intro h
    rw [h] at hlen
    simp at hlen
    omega
  have hne2 : ([] : List Char) ≠ D := fun h => hne h.symm
  have hfeed := runLock_feedDigits D (lockedStart cfg) rfl hdig
    (by simp [lockedStart, hlen]) hne
  rw [runLock_append, hfeed]
  simp only [lockedStart, List.nil_append, List.length_nil, Nat.zero_add,
    hlen, if_true]
  cases hE : cfg.enabled <;>
    simp [runLock, dispatch, handleInput, checkPin, hpin, unlock,
      startActivityMonitoring, stopActivityMonitoring, resetActivityTimer,
      updateDots, showError, hE, hne2]

/-- C5: entering the configured PIN while locked unlocks exactly once
with the buffer cleared, whether the check runs through the scheduled
auto-check on a full buffer or through an explicit enter press, and
when the feature is enabled, activity monitoring is restarted and the
inactivity timer rearmed. -/
theorem correct_pin_unlocks_once (cfg : LockCfg) (D : List Char)
    (hpin : cfg.pin = D) (hlen : D.length = cfg.length) (hpos : 0 < cfg.length)
    (hdig : ∀ c ∈ D, '0' ≤ c ∧ c ≤ '9') :
    ((runLock (lockedStart cfg)
        (D.map LockEv.keydown ++ [LockEv.autoCheckFires])).isLocked = false ∧
      (runLock (lockedStart cfg)
        (D.map LockEv.keydown ++ [LockEv.autoCheckFires])).inputBuffer = [] ∧
      (runLock (lockedStart cfg)
        (D.map LockEv.keydown ++ [LockEv.autoCheckFires])).unlockCount = 1 ∧
      (runLock (lockedStart cfg)
        (D.map LockEv.keydown ++ [LockEv.autoCheckFires])).monitoring
          = cfg.enabled ∧
      (runLock (lockedStart cfg)
        (D.map LockEv.keydown ++ [LockEv.autoCheckFires])).timerArmed
          = cfg.enabled) ∧
    ((runLock (lockedStart cfg)
        (D.map LockEv.keydown ++ [LockEv.keyEnter, LockEv.autoCheckFires])).isLocked
          = false ∧
      (runLock (lockedStart cfg)
        (D.map LockEv.keydown ++ [LockEv.keyEnter, LockEv.autoCheckFires])).inputBuffer
          = [] ∧
      (runLock (lockedStart cfg)
        (D.map LockEv.keydown ++ [LockEv.keyEnter, LockEv.autoCheckFires])).unlockCount
          = 1 ∧
      (runLock (lockedStart cfg)
        (D.map LockEv.keydown ++ [LockEv.keyEnter, LockEv.autoCheckFires])).monitoring
          = cfg.enabled ∧
      (runLock (lockedStart cfg)
        (D.map LockEv.keydown ++ [LockEv.keyEnter, LockEv.autoCheckFires])).timerArmed
          = cfg.enabled) := by
  rw [correctPin_pathA cfg D hpin hlen hpos hdig,
    correctPin_pathB cfg D hpin hlen hpos hdig]
  simp

/-- Concrete enabled configuration with PIN 1234 used by the closed
instances below. -/
def pinCfg : LockCfg :=
  { enabled := true, pin := "1234".data, length := 4, timeout := 300000 }

/-- Witness for the C5 theorem: PIN 1234 of length 4, lock feature
enabled, entered digit by digit. -/
theorem correct_pin_unlocks_once_witness :
    ((runLock (lockedStart pinCfg)
        ("1234".data.map LockEv.keydown ++ [LockEv.autoCheckFires])).isLocked
          = false ∧
      (runLock (lockedStart pinCfg)
        ("1234".data.map LockEv.keydown ++ [LockEv.autoCheckFires])).inputBuffer
          = [] ∧
      (runLock (lockedStart pinCfg)
        ("1234".data.map LockEv.keydown ++ [LockEv.autoCheckFires])).unlockCount
          = 1 ∧
      (runLock (lockedStart pinCfg)
        ("1234".data.map LockEv.keydown ++ [LockEv.autoCheckFires])).monitoring
          = pinCfg.enabled ∧
      (runLock (lockedStart pinCfg)
        ("1234".data.map LockEv.keydown ++ [LockEv.autoCheckFires])).timerArmed
          = pinCfg.enabled) ∧
    ((runLock (lockedStart pinCfg)
        ("1234".data.map LockEv.keydown ++
          [LockEv.keyEnter, LockEv.autoCheckFires])).isLocked = false ∧
      (runLock (lockedStart pinCfg)
        ("1234".data.map LockEv.keydown ++
          [LockEv.keyEnter, LockEv.autoCheckFires])).inputBuffer = [] ∧
      (runLock (lockedStart pinCfg)
        ("1234".data.map LockEv.keydown ++
          [LockEv.keyEnter, LockEv.autoCheckFires])).unlockCount = 1 ∧
      (runLock (lockedStart pinCfg)
        ("1234".data.map LockEv.keydown ++
          [LockEv.keyEnter, LockEv.autoCheckFires])).monitoring
            = pinCfg.enabled ∧
      (runLock (lockedStart pinCfg)
        ("1234".data.map LockEv.keydown ++
          [LockEv.keyEnter, LockEv.autoCheckFires])).timerArmed
            = pinCfg.enabled) :=
  correct_pin_unlocks_once pinCfg "1234".data rfl (by decide) (by decide)
    (by decide)

lemma wrongPin_path (cfg : LockCfg) (D : List Char)
    (hlen : D.length = cfg.length) (hpos : 0 < cfg.length)
    (hne : D ≠ cfg.pin) (hdig : ∀ c ∈ D, '0' ≤ c ∧ c ≤ '9') :
    runLock (lockedStart cfg) (D.map LockEv.keydown ++ [LockEv.autoCheckFires]) =
      { config := cfg, isLocked := true, inputBuffer := [],
        pendingChecks := [], pendingErrorClears := [500],
        monitoring := false, timerArmed := false,
        errorShown := true, unlockCount := 0 } := by
  have hnil : D ≠ [] := by
    intro h
    rw [h] at hlen
    simp at hlen
    omega
  have hfeed := runLock_feedDigits D (lockedStart cfg) rfl hdig
    (by simp [lockedStart, hlen]) hnil
  rw [runLock_append, hfeed]
  simp only [lockedStart, List.nil_append, List.length_nil, Nat.zero_add,
    hlen, if_true]
  simp [runLock, dispatch, checkPin, hne, showError]

/-- C6: entering a full-length digit sequence different from the
configured PIN leaves the session locked, clears the input buffer, and
shows the error state with a 500 ms auto-clear scheduled; once that
clear fires, the error state is gone and the buffer is still empty. -/
theorem wrong_pin_stays_locked (cfg : LockCfg) (D : List Char)
    (hlen : D.length = cfg.length) (hpos : 0 < cfg.length)
    (hne : D ≠ cfg.pin) (hdig : ∀ c ∈ D, '0' ≤ c ∧ c ≤ '9') :
    ((runLock (lockedStart cfg)
        (D.map LockEv.keydown ++ [LockEv.autoCheckFires])).isLocked = true ∧
      (runLock (lockedStart cfg)
        (D.map LockEv.keydown ++ [LockEv.autoCheckFires])).inputBuffer = [] ∧
      (runLock (lockedStart cfg)
        (D.map LockEv.keydown ++ [LockEv.autoCheckFires])).errorShown = true ∧
      (runLock (lockedStart cfg)
        (D.map LockEv.keydown ++ [LockEv.autoCheckFires])).pendingErrorClears
          = [500] ∧
      (runLock (lockedStart cfg)
        (D.map LockEv.keydown ++ [LockEv.autoCheckFires])).unlockCount = 0) ∧
    ((runLock (lockedStart cfg)
        (D.map LockEv.keydown ++
          [LockEv.autoCheckFires, LockEv.errorClearFires])).isLocked = true ∧
      (runLock (lockedStart cfg)
        (D.map LockEv.keydown ++
          [LockEv.autoCheckFires, LockEv.errorClearFires])).inputBuffer = [] ∧
      (runLock (lockedStart cfg)
        (D.map LockEv.keydown ++
          [LockEv.autoCheckFires, LockEv.errorClearFires])).errorShown
          = false) := by
  have h1 := wrongPin_path cfg D hlen hpos hne hdig
  have h2 : runLock (lockedStart cfg)
      (D.map LockEv.keydown ++ [LockEv.autoCheckFires, LockEv.errorClearFires]) =
      runLock (runLock (lockedStart cfg)
        (D.map LockEv.keydown ++ [LockEv.autoCheckFires])) [LockEv.errorClearFires] := by
    rw [← runLock_append]
    simp
  rw [h2, h1]
  simp [runLock, dispatch, updateDots]

/-- Witness for the C6 theorem: PIN 1234, wrong entry 9999. -/
theorem wrong_pin_stays_locked_witness :
    ((runLock (lockedStart pinCfg)
        ("9999".data.map LockEv.keydown ++ [LockEv.autoCheckFires])).isLocked
          = true ∧
      (runLock (lockedStart pinCfg)
        ("9999".data.map LockEv.keydown ++ [LockEv.autoCheckFires])).inputBuffer
          = [] ∧
      (runLock (lockedStart pinCfg)
        ("9999".data.map LockEv.keydown ++ [LockEv.autoCheckFires])).errorShown
          = true ∧
      (runLock (lockedStart pinCfg)
        ("9999".data.map LockEv.keydown ++
          [LockEv.autoCheckFires])).pendingErrorClears = [500] ∧
      (runLock (lockedStart pinCfg)
        ("9999".data.map LockEv.keydown ++ [LockEv.autoCheckFires])).unlockCount
          = 0) ∧
    ((runLock (lockedStart pinCfg)
        ("9999".data.map LockEv.keydown ++
          [LockEv.autoCheckFires, LockEv.errorClearFires])).isLocked = true ∧
      (runLock (lockedStart pinCfg)
        ("9999".data.map LockEv.keydown ++
          [LockEv.autoCheckFires, LockEv.errorClearFires])).inputBuffer = [] ∧
      (runLock (lockedStart pinCfg)
        ("9999".data.map LockEv.keydown ++
          [LockEv.autoCheckFires, LockEv.errorClearFires])).errorShown = false) :=
  wrong_pin_stays_locked pinCfg "9999".data (by decide) (by decide) (by decide)
    (by decide)

/-- Invariant claimed for the lock session: the PIN buffer holds only
decimal digits and never exceeds the configured length. -/
def bufferInv (s : LockState) : Prop :=
  (∀ c ∈ s.inputBuffer, '0' ≤ c ∧ c ≤ '9') ∧
    s.inputBuffer.length ≤ s.config.length

lemma bufferInv_of_nil (s : LockState) (h : s.inputBuffer = []) :
    bufferInv s := by
  constructor <;> simp [h]

lemma checkPin_inputBuffer (s : LockState) : (checkPin s).inputBuffer = [] := by
  simp only [checkPin, unlock, startActivityMonitoring, stopActivityMonitoring,
    resetActivityTimer, showError]
  split_ifs <;> rfl

lemma bufferInv_handleInput (s : LockState) (k : Key) (h : bufferInv s)
    (hk : ∀ c, k = Key.digit c → '0' ≤ c ∧ c ≤ '9') :
    bufferInv (handleInput s k) := by
  cases k with
  | backspace =>
    refine ⟨?_, ?_⟩
    · intro c hc
      exact h.1 c (List.dropLast_subset _ hc)
    · simp only [handleInput, updateDots, List.length_dropLast]
      have := h.2
      omega
  | enter => exact bufferInv_of_nil _ (checkPin_inputBuffer s)
  | digit c =>
    have hdc := hk c rfl
    by_cases hroom : s.inputBuffer.length < s.config.length
    · by_cases hfull : (s.inputBuffer ++ [c]).length = s.config.length
      · refine ⟨?_, ?_⟩ <;>
          simp only [handleInput, updateDots, hroom, if_true, hfull, if_pos]
        · intro x hx
          rcases List.mem_append.1 hx with hx | hx
          · exact h.1 x hx
          · simp at hx
            subst hx
            exact hdc
        · simp [hfull]
      · refine ⟨?_, ?_⟩ <;>
          simp only [handleInput, updateDots, hroom, if_true, hfull, if_false]
        · intro x hx
          rcases List.mem_append.1 hx with hx | hx
          · exact h.1 x hx
          · simp at hx
            subst hx
            exact hdc
        · simp only [List.length_append, List.length_cons, List.length_nil]
          omega
    · simpa only [handleInput, updateDots, hroom, if_false] using h

lemma bufferInv_dispatch (s : LockState) (ev : LockEv) (h : bufferInv s) :
    bufferInv (dispatch s ev) := by
  cases ev with
  | keydown c =>
    simp only [dispatch]
    split_ifs with h1 h2
    · exact bufferInv_handleInput s (Key.digit c) h
        (fun x hx => by cases hx; exact h2)
    · exact h
    · exact h
  | keyBackspace =>
    simp only [dispatch]
    split_ifs
    · exact bufferInv_handleInput s Key.backspace h (fun x hx => by cases hx)
    · exact h
  | keyEnter =>
    simp only [dispatch]
    split_ifs
    · exact bufferInv_handleInput s Key.enter h (fun x hx => by cases hx)
    · exact h
  | autoCheckFires =>
    simp only [dispatch]
    cases hp : s.pendingChecks with
    | nil => exact h
    | cons a rest => exact bufferInv_of_nil _ (checkPin_inputBuffer _)
  | errorClearFires =>
    simp only [dispatch]
    cases hp : s.pendingErrorClears with
    | nil => exact h
    | cons a rest => exact h
  | inactivityFires =>
    simp only [dispatch]
    split_ifs
    · simp only [lock]
      split_ifs
      · exact h
      · exact bufferInv_of_nil _ rfl
    · exact h

lemma bufferInv_runLock (evs : List LockEv) : ∀ s : LockState,
    bufferInv s → bufferInv (runLock s evs) := by
  induction evs with
  | nil => intro s h; exact h
  | cons ev rest ih =>
    intro s h
    exact ih (dispatch s ev) (bufferInv_dispatch s ev h)

/-- C9: under any sequence of lock-screen events from a state whose
buffer is well formed, the buffer keeps holding only decimal digits
with length at most the configured PIN length; a digit arriving on a
full buffer changes neither the buffer nor the scheduled checks, a
backspace on an empty buffer leaves it empty, and the digit that fills
the buffer to exactly the configured length appends and schedules the
automatic 100 ms PIN check. -/
theorem lock_input_buffer_invariant (evs : List LockEv)
    (s t1 t2 t3 : LockState) (c1 c3 : Char) (hinv : bufferInv s)
    (hfull : t1.inputBuffer.length = t1.config.length)
    (hempty : t2.inputBuffer = [])
    (hreach : t3.inputBuffer.length + 1 = t3.config.length) :
    bufferInv (runLock s evs) ∧
    (handleInput t1 (Key.digit c1)).inputBuffer = t1.inputBuffer ∧
    (handleInput t1 (Key.digit c1)).pendingChecks = t1.pendingChecks ∧
    (handleInput t2 Key.backspace).inputBuffer = [] ∧
    (handleInput t3 (Key.digit c3)).inputBuffer = t3.inputBuffer ++ [c3] ∧
    (handleInput t3 (Key.digit c3)).pendingChecks = t3.pendingChecks ++ [100] := by
  have hnoroom : ¬ t1.inputBuffer.length < t1.config.length := by omega
  have hroom3 : t3.inputBuffer.length < t3.config.length := by omega
  have hfull3 : (t3.inputBuffer ++ [c3]).length = t3.config.length := by
    simp only [List.length_append, List.length_cons, List.length_nil]
    omega
  refine ⟨bufferInv_runLock evs s hinv, ?_, ?_, ?_, ?_, ?_⟩
  · simp [handleInput, updateDots, hnoroom]
  · simp [handleInput, updateDots, hnoroom]
  · simp [handleInput, updateDots, hempty]
  · simp [handleInput, updateDots, hroom3, hfull3]
  · simp [handleInput, updateDots, hroom3, hfull3]

/-- Full-buffer state used by the C9 witness. -/
def fullBufState : LockState :=
  { lockedStart pinCfg with inputBuffer := "1234".data }

/-- One-short-of-full buffer state used by the C9 witness. -/
def nearFullBufState : LockState :=
  { lockedStart pinCfg with inputBuffer := "123".data }

/-- Witness for the C9 theorem at a concrete event trace covering every
event kind and at concrete full, empty and nearly full buffers. -/
theorem lock_input_buffer_invariant_witness :
    bufferInv (runLock (lockedStart pinCfg)
      [LockEv.keydown '1', LockEv.keyBackspace, LockEv.keyEnter,
        LockEv.autoCheckFires, LockEv.errorClearFires,
        LockEv.inactivityFires]) ∧
    (handleInput fullBufState (Key.digit '5')).inputBuffer =
      fullBufState.inputBuffer ∧
    (handleInput fullBufState (Key.digit '5')).pendingChecks =
      fullBufState.pendingChecks ∧
    (handleInput (lockedStart pinCfg) Key.backspace).inputBuffer = [] ∧
    (handleInput nearFullBufState (Key.digit '4')).inputBuffer =
      nearFullBufState.inputBuffer ++ ['4'] ∧
    (handleInput nearFullBufState (Key.digit '4')).pendingChecks =
      nearFullBufState.pendingChecks ++ [100] :=
  lock_input_buffer_invariant
    [LockEv.keydown '1', LockEv.keyBackspace, LockEv.keyEnter,
      LockEv.autoCheckFires, LockEv.errorClearFires, LockEv.inactivityFires]
    (lockedStart pinCfg) fullBufState (lockedStart pinCfg) nearFullBufState
    '5' '4' ⟨by decide, by decide⟩ (by decide) rfl (by decide)

/-! ## Settings update (src/js/app.js saveSettings handler and
LockController.updateSettings)

The settings handler reads the checkbox, the two PIN fields, the chosen
length radio button and the timeout minutes field, validates only when
the feature is enabled, and only that the two PIN fields agree and that
the PIN length equals the chosen length; it then hands all four keys to
LockController.updateSettings, which spreads them over the stored
config and persists the result at once via saveConfig.  none models the
early return with an error toast, in which case the previous config
stays in place. -/

/-- Embedding of LockController.updateSettings restricted to its config
effect: the handler passes every key, so the spread replaces every
field; the result is persisted unconditionally. -/
def updateSettings (_cur newCfg : LockCfg) : LockCfg := newCfg

def saveSettingsClick (cur : LockCfg) (enabled : Bool)
    (pin confirmPin : List Char) (length : Nat) (timeoutMin : Int) :
    Option LockCfg :=
  if enabled ∧ pin ≠ confirmPin then none
  else if enabled ∧ pin.length ≠ length then none
  else some (updateSettings cur
    { enabled := enabled, pin := pin, length := length,
      timeout := timeoutMin * 60000 })

/-- Delay with which resetActivityTimer arms the inactivity timeout:
none when it returns without arming (feature disabled or screen
locked), some delay otherwise.  The delay goes to setTimeout unchecked,
so zero or negative values arm an immediately firing timer. -/
def resetActivityTimerDelay (cfg : LockCfg) (isLocked : Bool) : Option Int :=
  if !cfg.enabled || isLocked then none else some cfg.timeout

/-- C4 counterexample: a settings update with a non-numeric PIN abcd
and a timeout of -1 minute passes validation, is persisted, and the
resulting config arms the inactivity timer with the negative timeout
-60000 ms, contradicting the claim that such configurations are
rejected before persistence and never arm the timer. -/
theorem settings_malformed_accepted_counterexample :
    saveSettingsClick defaultLockCfg true "abcd".data "abcd".data 4 (-1) =
      some { enabled := true, pin := "abcd".data, length := 4,
             timeout := -60000 } ∧
    resetActivityTimerDelay
      { enabled := true, pin := "abcd".data, length := 4, timeout := -60000 }
      false = some (-60000) := by
  constructor
  · rfl
  · rfl

/-- C4 amended: a settings update is rejected, leaving the previous
config in place, exactly when the feature is enabled and either the two
PIN fields differ or the PIN length differs from the selected length;
in every other case the new config, including a non-numeric PIN or a
non-positive timeout, is persisted as given, and resetActivityTimer
arms the timer with the stored timeout whenever the feature is enabled
and the screen is unlocked, with no positivity check. -/
theorem settings_validation_characterization (cur : LockCfg) (enabled : Bool)
    (pin confirmPin : List Char) (length : Nat) (timeoutMin : Int)
    (cfg : LockCfg) (locked : Bool) :
    saveSettingsClick cur enabled pin confirmPin length timeoutMin =
      (if enabled = true ∧ (pin ≠ confirmPin ∨ pin.length ≠ length) then none
        else some { enabled := enabled, pin := pin, length := length,
                    timeout := timeoutMin * 60000 }) ∧
    resetActivityTimerDelay cfg locked =
      (if cfg.enabled = true ∧ locked = false then some cfg.timeout
        else none) := by
  constructor
  · cases enabled <;>
      by_cases hpc : pin = confirmPin <;>
      by_cases hl : pin.length = length <;>
      simp [saveSettingsClick, updateSettings, hpc, hl]
  · rcases cfg with ⟨en, p, len, tm⟩
    cases en <;> cases locked <;> simp [resetActivityTimerDelay]
